import Mathlib

/-!
Verification of `training_scripts/lincs_experiment.py` (UnixJunkie/BiAAE).

The script wraps a chosen generative model class (BiAAE, CVAE, ...) in a
`CondGenExperiment` subclass that adds a MINE-style mutual-information
estimator to the training and validation lifecycle hooks, and wires the
experiment to fixed dataset/checkpoint/log paths.

Modelling conventions:
  * Tensors of per-row scalars become functions `Fin n → ℚ`; `torch.exp`
    and `torch.log` are abstract functions `E L : ℚ → ℚ` (the script only
    composes them, it never relies on their analytic properties).
  * The random row shuffle `z[np.random.permutation(n)]` becomes an
    arbitrary permutation `σ : Equiv.Perm (Fin n)`.
  * Python dictionaries become association lists with an insert-or-update
    operation `dictSet` mirroring Python's key-assignment semantics
    (update in place if the key exists, append otherwise).
  * `.detach()` only changes autograd metadata, so it is modelled as an
    abstract endofunction supplied as a parameter; the theorems show
    exactly which values flow through it.
  * External classes (base model, optimizers, molecules) are abstract
    types or small configuration records mirroring the constructor calls.
-/

/-- Mean of a batch of rationals, `t.mean()` on a tensor of shape `(n,)`. -/
def batchMean {n : ℕ} (f : Fin n → ℚ) : ℚ := (∑ i, f i) / n

/-- `mi_computation(self, batch, z)` from `lincs_experiment.py`:
`z_shuffled = z[perm]`, `x_lat = mine_enc(x)`,
`t = mine_fc(cat(x_lat, z))`, `et = exp(mine_fc(cat(x_lat, z_shuffled)))`,
returns `t.mean() - log(et.mean())`.  Row-wise view: the concatenation
feeding `mine_fc` is modelled as passing the two latent rows separately. -/
def mi_computation {Xe Lat : Type} {n : ℕ} (E L : ℚ → ℚ)
    (mine_enc : Xe → Lat) (mine_fc : Lat → Lat → ℚ)
    (x : Fin n → Xe) (z : Fin n → Lat) (σ : Equiv.Perm (Fin n)) : ℚ :=
  let z_shuffled : Fin n → Lat := fun i => z (σ i)
  let x_lat : Fin n → Lat := fun i => mine_enc (x i)
  let t : Fin n → ℚ := fun i => mine_fc (x_lat i) (z i)
  let et : Fin n → ℚ := fun i => E (mine_fc (x_lat i) (z_shuffled i))
  batchMean t - L (batchMean et)

/-- Modelled from the spec: the Donsker–Varadhan lower bound
`t.mean() - log(mean(exp(t_shuffled)))`, where `t` is the discriminator
`mine_fc` applied to the encoded `x` paired with `z`, and `t_shuffled` is
the same discriminator applied to the same encoder output paired with a
row permutation of `z`. -/
def dvLowerBound {Xe Lat : Type} {n : ℕ} (E L : ℚ → ℚ)
    (mine_enc : Xe → Lat) (mine_fc : Lat → Lat → ℚ)
    (x : Fin n → Xe) (z : Fin n → Lat) (σ : Equiv.Perm (Fin n)) : ℚ :=
  batchMean (fun i => mine_fc (mine_enc (x i)) (z i)) -
    L (batchMean (fun i => E (mine_fc (mine_enc (x i)) (z (σ i)))))

/-- C1: for every batch `(x, y)` and latent batch `z`, `mi_computation`
returns the Donsker–Varadhan lower bound `t.mean() - log(mean(exp(t_shuffled)))`
with `t = mine_fc(mine_enc x, z)` and `t_shuffled = mine_fc(mine_enc x, z∘σ)`
for the row permutation `σ`, the same encoder output being used in both terms. -/
theorem mi_computation_is_dv_bound {Xe Lat : Type} {n : ℕ} (E L : ℚ → ℚ)
    (mine_enc : Xe → Lat) (mine_fc : Lat → Lat → ℚ)
    (x : Fin n → Xe) (z : Fin n → Lat) (σ : Equiv.Perm (Fin n)) :
    mi_computation E L mine_enc mine_fc x z σ =
      dvLowerBound E L mine_enc mine_fc x z σ := rfl

/-- Python dict key assignment `d[k] = v` on an association list: update the
first matching key in place, otherwise append the new binding at the end
(Python dicts preserve insertion order). -/
def dictSet {α : Type} : List (String × α) → String → α → List (String × α)
  | [], k, v => [(k, v)]
  | (k', v') :: rest, k, v =>
      if k' = k then (k, v) :: rest else (k', v') :: dictSet rest k v

/-- Values stored in the stats dictionary returned by `training_step`:
either a scalar (`loss`, an MI estimate) or the nested `log` dictionary. -/
inductive SVal where
  | num : ℚ → SVal
  | dict : List (String × ℚ) → SVal
deriving DecidableEq

/-- A stats dictionary as returned by `training_step`. -/
abbrev StatsDict := List (String × SVal)

/-- Read `d[k]` expecting a scalar (0 if absent/not scalar; the script only
reads keys it knows are scalars). -/
def getNum (d : StatsDict) (k : String) : ℚ :=
  match d.lookup k with
  | some (SVal.num q) => q
  | _ => 0

/-- Read `d[k]` expecting a nested dictionary (empty if absent). -/
def getLog (d : StatsDict) (k : String) : List (String × ℚ) :=
  match d.lookup k with
  | some (SVal.dict l) => l
  | _ => []

/-- `training_step(self, batch, batch_nb, *args)` from `lincs_experiment.py`.
`base` is `super().training_step` (the wrapped model class, not in this
file's source: supplied abstractly), `get_latents` is `self.get_latents`,
`detachY`/`detachZ` model `.detach()` on the conditioning tensor and on the
latents, and `mi_comp` is `self.mi_computation` on the (detached) batch and
latents.  `args` carries the optimizer index for AAE-like models. -/
def training_step {X Y Z : Type}
    (base : X × Y → ℕ → List ℕ → StatsDict)
    (get_latents : X × Y → Z) (detachY : Y → Y) (detachZ : Z → Z)
    (mi_comp : X × Y → Z → ℚ)
    (batch : X × Y) (batch_nb : ℕ) (args : List ℕ) : StatsDict :=
  let stats := base batch batch_nb args
  if args.length = 0 then
    let batch := (batch.1, detachY batch.2)
    let z := detachZ (get_latents batch)
    let mi := mi_comp batch z
    let stats := dictSet stats "loss" (SVal.num (getNum stats "loss" + -mi))
    let stats := dictSet stats "log"
      (SVal.dict (dictSet (getLog stats "log") "mi[xz|y]" mi))
    stats
  else if args.headD 0 = 2 then
    let batch := (batch.1, detachY batch.2)
    let z := detachZ (get_latents batch)
    let mi := mi_comp batch z
    [("loss", SVal.num (-mi)), ("log", SVal.dict [("mi[xz|y]", mi)])]
  else
    stats

theorem lookup_dictSet_self {α : Type} (d : List (String × α)) (k : String) (v : α) :
    (dictSet d k v).lookup k = some v := by
  induction d with
  | nil => simp [dictSet, List.lookup]
  | cons p rest ih =>
    obtain ⟨k', v'⟩ := p
    by_cases h : k' = k
    · simp [dictSet, h, List.lookup]
    · have hb : (k == k') = false := beq_eq_false_iff_ne.mpr (Ne.symm h)
      simp [dictSet, h, List.lookup, hb, ih]

theorem lookup_dictSet_ne {α : Type} (d : List (String × α)) (k k' : String) (v : α)
    (h : k' ≠ k) : (dictSet d k v).lookup k' = d.lookup k' := by
  have hb : (k' == k) = false := beq_eq_false_iff_ne.mpr h
  induction d with
  | nil => simp [dictSet, List.lookup, hb]
  | cons p rest ih =>
    obtain ⟨k'', v''⟩ := p
    by_cases hk : k'' = k
    · subst hk
      simp [dictSet, List.lookup, hb]
    · simp [dictSet, hk, List.lookup, ih]

theorem getLog_dictSet_ne (d : StatsDict) (k k' : String) (v : SVal) (h : k' ≠ k) :
    getLog (dictSet d k v) k' = getLog d k' := by
  simp [getLog, lookup_dictSet_ne d k k' v h]

/-- C2: for a VAE-like model (`training_step` invoked with no extra
optimizer-index argument) the returned stats are the base class's stats with
the loss decreased by the MI estimate (i.e. increased by its negative) and
the log entry `mi[xz|y]` set to that estimate, where the MI is computed on
the batch with its second component detached and on detached latents. -/
theorem training_step_vae_like {X Y Z : Type}
    (base : X × Y → ℕ → List ℕ → StatsDict)
    (get_latents : X × Y → Z) (detachY : Y → Y) (detachZ : Z → Z)
    (mi_comp : X × Y → Z → ℚ) (x : X) (y : Y) (batch_nb : ℕ) :
    (training_step base get_latents detachY detachZ mi_comp (x, y) batch_nb [] =
      dictSet
        (dictSet (base (x, y) batch_nb []) "loss"
          (SVal.num (getNum (base (x, y) batch_nb []) "loss" -
            mi_comp (x, detachY y) (detachZ (get_latents (x, detachY y))))))
        "log"
        (SVal.dict (dictSet (getLog (base (x, y) batch_nb []) "log") "mi[xz|y]"
          (mi_comp (x, detachY y) (detachZ (get_latents (x, detachY y))))))) ∧
    (getLog (training_step base get_latents detachY detachZ mi_comp (x, y) batch_nb [])
        "log").lookup "mi[xz|y]" =
      some (mi_comp (x, detachY y) (detachZ (get_latents (x, detachY y)))) := by
  constructor
  · show dictSet _ "log" _ = _
    rw [getLog_dictSet_ne _ "loss" "log" _ (by decide), sub_eq_add_neg]
  · show (getLog (dictSet _ "log" _) "log").lookup "mi[xz|y]" = _
    simp [getLog, lookup_dictSet_self]

/-- C3: for an AAE-like model, when the optimizer index is 2 the returned
stats dictionary is exactly `{loss: -mi, log: {mi[xz|y]: mi}}` with the MI
computed on the batch with detached second component and detached latents,
and the base class's stats are discarded (the result does not depend on
what the base `training_step` returns). -/
theorem training_step_aae_opt2 {X Y Z : Type}
    (base base' : X × Y → ℕ → List ℕ → StatsDict)
    (get_latents : X × Y → Z) (detachY : Y → Y) (detachZ : Z → Z)
    (mi_comp : X × Y → Z → ℚ) (x : X) (y : Y) (batch_nb : ℕ)
    (args : List ℕ) (hne : args ≠ []) (h2 : args.headD 0 = 2) :
    (training_step base get_latents detachY detachZ mi_comp (x, y) batch_nb args =
      [("loss", SVal.num (-(mi_comp (x, detachY y) (detachZ (get_latents (x, detachY y)))))),
       ("log", SVal.dict
         [("mi[xz|y]", mi_comp (x, detachY y) (detachZ (get_latents (x, detachY y))))])]) ∧
    training_step base get_latents detachY detachZ mi_comp (x, y) batch_nb args =
      training_step base' get_latents detachY detachZ mi_comp (x, y) batch_nb args := by
  have hlen : ¬args.length = 0 := by simpa using hne
  constructor
  · simp only [training_step]
    rw [if_neg hlen, if_pos h2]
  · simp only [training_step]
    rw [if_neg hlen, if_pos h2, if_neg hlen, if_pos h2]

theorem training_step_aae_opt2_witness :
    (training_step (fun _ _ _ => [("loss", SVal.num 1)]) (fun _ => (0 : ℕ))
        id id (fun _ _ => (5 : ℚ)) ((0 : ℕ), (0 : ℕ)) 0 [2] =
      [("loss", SVal.num (-(5 : ℚ))), ("log", SVal.dict [("mi[xz|y]", (5 : ℚ))])]) ∧
    training_step (fun _ _ _ => [("loss", SVal.num 1)]) (fun _ => (0 : ℕ))
        id id (fun _ _ => (5 : ℚ)) ((0 : ℕ), (0 : ℕ)) 0 [2] =
      training_step (fun _ _ _ => [("loss", SVal.num 7)]) (fun _ => (0 : ℕ))
        id id (fun _ _ => (5 : ℚ)) ((0 : ℕ), (0 : ℕ)) 0 [2] :=
  training_step_aae_opt2 (fun _ _ _ => [("loss", SVal.num 1)])
    (fun _ _ _ => [("loss", SVal.num 7)]) (fun _ => (0 : ℕ)) id id
    (fun _ _ => (5 : ℚ)) 0 0 0 [2] (by decide) (by decide)

/-- C10: for an AAE-like call whose optimizer index is not 2, the base
class's stats are passed through unchanged, and the result does not depend
on the MI machinery (encoder, detach, MI estimator), so no MI computation
influences the outcome. -/
theorem training_step_other_optimizer {X Y Z : Type}
    (base : X × Y → ℕ → List ℕ → StatsDict)
    (gl gl' : X × Y → Z) (dY dY' : Y → Y) (dZ dZ' : Z → Z)
    (mi mi' : X × Y → Z → ℚ) (batch : X × Y) (batch_nb : ℕ)
    (args : List ℕ) (hne : args ≠ []) (h2 : args.headD 0 ≠ 2) :
    (training_step base gl dY dZ mi batch batch_nb args = base batch batch_nb args) ∧
    training_step base gl dY dZ mi batch batch_nb args =
      training_step base gl' dY' dZ' mi' batch batch_nb args := by
  have hlen : ¬args.length = 0 := by simpa using hne
  constructor
  · simp only [training_step]
    rw [if_neg hlen, if_neg h2]
  · simp only [training_step]
    rw [if_neg hlen, if_neg h2, if_neg hlen, if_neg h2]

theorem training_step_other_optimizer_witness :
    (training_step (fun _ _ _ => [("loss", SVal.num 1)]) (fun _ => (0 : ℕ))
        id id (fun _ _ => (5 : ℚ)) ((0 : ℕ), (0 : ℕ)) 0 [0] =
      [("loss", SVal.num 1)]) ∧
    training_step (fun _ _ _ => [("loss", SVal.num 1)]) (fun _ => (0 : ℕ))
        id id (fun _ _ => (5 : ℚ)) ((0 : ℕ), (0 : ℕ)) 0 [0] =
      training_step (fun _ _ _ => [("loss", SVal.num 1)]) (fun _ => (1 : ℕ))
        id id (fun _ _ => (9 : ℚ)) ((0 : ℕ), (0 : ℕ)) 0 [0] :=
  training_step_other_optimizer (fun _ _ _ => [("loss", SVal.num 1)])
    (fun _ => (0 : ℕ)) (fun _ => (1 : ℕ)) id id id id
    (fun _ _ => (5 : ℚ)) (fun _ _ => (9 : ℚ)) ((0 : ℕ), (0 : ℕ)) 0 [0]
    (by decide) (by decide)

/-- A torch optimizer as constructed by the script: algorithm name,
learning rate, and the parameter collection it optimizes (parameters are
abstract, of type `P`). -/
structure Optim (P : Type) where
  algo : String
  lr : ℚ
  params : List P

/-- Result of `configure_optimizers`: either a non-tuple value returned
unchanged (payload `A`), or a tuple `(optimizer list, scheduler list)`
(schedulers abstract, of type `S`). -/
inductive OptimResult (P S A : Type) where
  | plain : A → OptimResult P S A
  | tup : List (Optim P) → List S → OptimResult P S A

/-- `torch.nn.ModuleList([self.mine_fc, self.mine_enc]).parameters()`:
the discriminator's parameters followed by the finetuned encoder's. -/
def moduleListParams {P : Type} (mine_fc_params mine_enc_params : List P) : List P :=
  mine_fc_params ++ mine_enc_params

/-- `configure_optimizers(self)` from `lincs_experiment.py`: if the base
result is a tuple, append `torch.optim.Adam(mi_params, lr=3e-4)` to its
first element (the optimizer list); otherwise return the base result. -/
def configure_optimizers {P S A : Type} (base : OptimResult P S A)
    (mine_fc_params mine_enc_params : List P) : OptimResult P S A :=
  match base with
  | OptimResult.tup os ss =>
      OptimResult.tup
        (os ++ [⟨"Adam", 3 / 10000, moduleListParams mine_fc_params mine_enc_params⟩]) ss
  | OptimResult.plain a => OptimResult.plain a

/-- C4: `configure_optimizers` appends exactly one Adam optimizer with
learning rate `3e-4` over the parameters of `mine_fc` and `mine_enc` to the
first element of the base class's result when that result is a tuple, and
returns the base result unchanged otherwise. -/
theorem configure_optimizers_spec {P S A : Type}
    (os : List (Optim P)) (ss : List S) (a : A)
    (mine_fc_params mine_enc_params : List P) :
    (configure_optimizers (OptimResult.tup os ss : OptimResult P S A)
        mine_fc_params mine_enc_params =
      OptimResult.tup
        (os ++ [⟨"Adam", 3 / 10000, mine_fc_params ++ mine_enc_params⟩]) ss) ∧
    configure_optimizers (OptimResult.plain a : OptimResult P S A)
        mine_fc_params mine_enc_params =
      OptimResult.plain a :=
  ⟨rfl, rfl⟩

/-- Values stored in the validation stats dictionary: the scalar MI
estimate, a list of SMILES strings (sampled or real molecules), or the raw
conditioning tensor `y`. -/
inductive VEntry (Y : Type) where
  | num : ℚ → VEntry Y
  | smiles : List String → VEntry Y
  | yval : Y → VEntry Y

/-- A validation stats dictionary. -/
abbrev VStats (Y : Type) := List (String × VEntry Y)

/-- `validation_step(self, batch, batch_nb)` from `lincs_experiment.py`:
start from the base class's stats (empty dict when it returns `None`),
record the MI estimate under `mi[xz|y]` (latents not detached here),
the molecules sampled conditioned on `y` under `x_sam`, and the batch
components under `x` and `y`. -/
def validation_step {Y Z : Type} (baseStats : Option (VStats Y))
    (get_latents : List String × Y → Z) (mi_comp : List String × Y → Z → ℚ)
    (sample : Y → List String) (batch : List String × Y) : VStats Y :=
  let stats := baseStats.getD []
  let z := get_latents batch
  let mi := mi_comp batch z
  let stats := dictSet stats "mi[xz|y]" (VEntry.num mi)
  let sampled_x := sample batch.2
  let stats := dictSet stats "x_sam" (VEntry.smiles sampled_x)
  let stats := dictSet stats "x" (VEntry.smiles batch.1)
  let stats := dictSet stats "y" (VEntry.yval batch.2)
  stats

/-- Read `d[k]` expecting the scalar MI estimate (0 if absent). -/
def getVNum {Y : Type} (d : VStats Y) (k : String) : ℚ :=
  match d.lookup k with
  | some (VEntry.num q) => q
  | _ => 0

/-- Read `d[k]` expecting a SMILES list (empty if absent). -/
def getVSmiles {Y : Type} (d : VStats Y) (k : String) : List String :=
  match d.lookup k with
  | some (VEntry.smiles l) => l
  | _ => []

/-- The molecule grid handed to `Draw.MolsToGridImage`: the molecule list
and the `molsPerRow` argument (rendering to pixels is outside the model). -/
structure GridImage (M : Type) where
  mols : List M
  molsPerRow : ℕ

/-- What `validation_end` produces: the returned `{log: ...}` dictionary
and the images logged through `self.logger.experiment.add_image`. -/
structure ValEndResult (M : Type) where
  log : List (String × ℚ)
  logged_images : List (String × GridImage M)

/-- `validation_end(self, outputs)` from `lincs_experiment.py`: the
returned log maps `val_mi[xz|y]` to the mean of the per-batch `mi[xz|y]`
values, and one grid image named `samples` is logged, built from
`Chem.MolFromSmiles` applied to the first 5 sampled and first 5 real
molecules of `outputs[0]`, five molecules per row. -/
def validation_end {Y M : Type} (molFromSmiles : String → M)
    (outputs : List (VStats Y)) : ValEndResult M :=
  let val_mi := (outputs.map (fun o => getVNum o "mi[xz|y]")).sum / outputs.length
  let first := outputs.headD []
  let mols := ((getVSmiles first "x_sam").take 5).map molFromSmiles ++
      ((getVSmiles first "x").take 5).map molFromSmiles
  ⟨[("val_mi[xz|y]", val_mi)], [("samples", ⟨mols, 5⟩)]⟩

theorem validation_step_lookup {Y Z : Type} (baseStats : Option (VStats Y))
    (get_latents : List String × Y → Z) (mi_comp : List String × Y → Z → ℚ)
    (sample : Y → List String) (b : List String × Y) :
    (validation_step baseStats get_latents mi_comp sample b).lookup "mi[xz|y]" =
      some (VEntry.num (mi_comp b (get_latents b))) ∧
    (validation_step baseStats get_latents mi_comp sample b).lookup "x_sam" =
      some (VEntry.smiles (sample b.2)) ∧
    (validation_step baseStats get_latents mi_comp sample b).lookup "x" =
      some (VEntry.smiles b.1) ∧
    (validation_step baseStats get_latents mi_comp sample b).lookup "y" =
      some (VEntry.yval b.2) := by
  refine ⟨?_, ?_, ?_, ?_⟩ <;> simp only [validation_step]
  · rw [lookup_dictSet_ne _ _ _ _ (by decide), lookup_dictSet_ne _ _ _ _ (by decide),
      lookup_dictSet_ne _ _ _ _ (by decide), lookup_dictSet_self]
  · rw [lookup_dictSet_ne _ _ _ _ (by decide), lookup_dictSet_ne _ _ _ _ (by decide),
      lookup_dictSet_self]
  · rw [lookup_dictSet_ne _ _ _ _ (by decide), lookup_dictSet_self]
  · rw [lookup_dictSet_self]

theorem getVNum_validation_step {Y Z : Type} (baseStats : Option (VStats Y))
    (get_latents : List String × Y → Z) (mi_comp : List String × Y → Z → ℚ)
    (sample : Y → List String) (b : List String × Y) :
    getVNum (validation_step baseStats get_latents mi_comp sample b) "mi[xz|y]" =
      mi_comp b (get_latents b) := by
  simp [getVNum, (validation_step_lookup baseStats get_latents mi_comp sample b).1]

theorem getVSmiles_validation_step_x_sam {Y Z : Type} (baseStats : Option (VStats Y))
    (get_latents : List String × Y → Z) (mi_comp : List String × Y → Z → ℚ)
    (sample : Y → List String) (b : List String × Y) :
    getVSmiles (validation_step baseStats get_latents mi_comp sample b) "x_sam" =
      sample b.2 := by
  simp [getVSmiles, (validation_step_lookup baseStats get_latents mi_comp sample b).2.1]

theorem getVSmiles_validation_step_x {Y Z : Type} (baseStats : Option (VStats Y))
    (get_latents : List String × Y → Z) (mi_comp : List String × Y → Z → ℚ)
    (sample : Y → List String) (b : List String × Y) :
    getVSmiles (validation_step baseStats get_latents mi_comp sample b) "x" = b.1 := by
  simp [getVSmiles, (validation_step_lookup baseStats get_latents mi_comp sample b).2.2.1]

/-- C5: every `validation_step` result carries `mi[xz|y]` (the MI estimate
on undetached latents), `x_sam` (molecules sampled conditioned on `y`),
and the batch components `x` and `y`; when the base class returns `None`
the dictionary is built from empty.  `validation_end` over the per-batch
results returns a log whose `val_mi[xz|y]` entry is the mean of the
per-batch MI values, and logs under `samples` a grid image built from the
first 5 sampled and the first 5 real molecules of the first batch. -/
theorem validation_mi_and_samples {Y Z M : Type}
    (baseF : List String × Y → Option (VStats Y))
    (gl : List String × Y → Z) (mc : List String × Y → Z → ℚ)
    (sp : Y → List String) (f : String → M)
    (x : List String) (y : Y) (batches rest : List (List String × Y))
    (hb : batches = (x, y) :: rest) :
    (∀ (bs : Option (VStats Y)) (b : List String × Y),
      (validation_step bs gl mc sp b).lookup "mi[xz|y]" =
          some (VEntry.num (mc b (gl b))) ∧
        (validation_step bs gl mc sp b).lookup "x_sam" =
          some (VEntry.smiles (sp b.2)) ∧
        (validation_step bs gl mc sp b).lookup "x" = some (VEntry.smiles b.1) ∧
        (validation_step bs gl mc sp b).lookup "y" = some (VEntry.yval b.2)) ∧
    validation_step none gl mc sp (x, y) =
      [("mi[xz|y]", VEntry.num (mc (x, y) (gl (x, y)))),
       ("x_sam", VEntry.smiles (sp y)),
       ("x", VEntry.smiles x),
       ("y", VEntry.yval y)] ∧
    (validation_end f (batches.map fun b => validation_step (baseF b) gl mc sp b)).log =
      [("val_mi[xz|y]", ((batches.map fun b => mc b (gl b)).sum) / batches.length)] ∧
    (validation_end f
        (batches.map fun b => validation_step (baseF b) gl mc sp b)).logged_images =
      [("samples", ⟨((sp y).take 5).map f ++ (x.take 5).map f, 5⟩)] := by
  refine ⟨fun bs b => validation_step_lookup bs gl mc sp b, rfl, ?_, ?_⟩
  · simp only [validation_end, List.map_map, List.length_map]
    have he : ((fun o => getVNum o "mi[xz|y]") ∘
          fun b => validation_step (baseF b) gl mc sp b) =
        fun b => mc b (gl b) :=
      funext fun b => getVNum_validation_step (baseF b) gl mc sp b
    rw [he]
  · subst hb
    simp only [List.map_cons, validation_end, List.headD_cons]
    rw [getVSmiles_validation_step_x_sam, getVSmiles_validation_step_x]

theorem validation_mi_and_samples_witness :
    (validation_end (fun _ => (0 : ℕ))
        ([(["N"], (0 : ℕ))].map fun b =>
          validation_step none (fun _ => (0 : ℕ)) (fun _ _ => (3 : ℚ))
            (fun _ => ["C"]) b)).log = [("val_mi[xz|y]", (3 : ℚ))] ∧
    (validation_end (fun _ => (0 : ℕ))
        ([(["N"], (0 : ℕ))].map fun b =>
          validation_step none (fun _ => (0 : ℕ)) (fun _ _ => (3 : ℚ))
            (fun _ => ["C"]) b)).logged_images =
      [("samples", ⟨[0, 0], 5⟩)] := by
  have h := validation_mi_and_samples (fun _ => none) (fun _ => (0 : ℕ))
    (fun _ _ => (3 : ℚ)) (fun _ => ["C"]) (fun _ => (0 : ℕ))
    ["N"] 0 [(["N"], 0)] [] rfl
  exact ⟨h.2.2.1.trans (by norm_num), h.2.2.2.trans (by rfl)⟩

/-- The eight model classes imported from `models` and wrapped by
`make_conditional_experiment`. -/
inductive ModelClass where
  | BiAAE
  | Lat_SAAE
  | UniAAE
  | CVAE
  | VCCA
  | JMVAE
  | VIB
  | SAAE
deriving DecidableEq

/-- `models_dict` from the script's `__main__` block. -/
def models_dict : List (String × ModelClass) :=
  [("biaae", ModelClass.BiAAE), ("lat_saae", ModelClass.Lat_SAAE),
   ("uniaae", ModelClass.UniAAE), ("cvae", ModelClass.CVAE),
   ("vcca", ModelClass.VCCA), ("jmvae", ModelClass.JMVAE),
   ("vib", ModelClass.VIB), ("saae", ModelClass.SAAE)]

/-- `parser.add_argument('--model', type=str, default='biaae')`: the value
of `--model`, or its default when the flag is absent. -/
def modelArg (arg : Option String) : String := arg.getD "biaae"

/-- Outcome of `make_conditional_experiment(models_dict[args.model])()`:
a failed dictionary lookup raises `KeyError` before any experiment object
is constructed. -/
inductive MainSelection where
  | keyError : MainSelection
  | experiment : ModelClass → MainSelection
deriving DecidableEq

def selectModel (arg : Option String) : MainSelection :=
  match models_dict.lookup (modelArg arg) with
  | some c => MainSelection.experiment c
  | none => MainSelection.keyError

/-- C6: `--model` defaults to `biaae`, and each of the eight known names
selects the corresponding model class and builds the experiment from it. -/
theorem model_arg_selection :
    modelArg none = "biaae" ∧
    selectModel none = MainSelection.experiment ModelClass.BiAAE ∧
    selectModel (some "biaae") = MainSelection.experiment ModelClass.BiAAE ∧
    selectModel (some "lat_saae") = MainSelection.experiment ModelClass.Lat_SAAE ∧
    selectModel (some "uniaae") = MainSelection.experiment ModelClass.UniAAE ∧
    selectModel (some "cvae") = MainSelection.experiment ModelClass.CVAE ∧
    selectModel (some "vcca") = MainSelection.experiment ModelClass.VCCA ∧
    selectModel (some "jmvae") = MainSelection.experiment ModelClass.JMVAE ∧
    selectModel (some "vib") = MainSelection.experiment ModelClass.VIB ∧
    selectModel (some "saae") = MainSelection.experiment ModelClass.SAAE := by
  decide

/-- C8: any `--model` value outside the eight known keys makes the script
fail with a lookup failure before any experiment is constructed. -/
theorem unknown_model_key_error (s : String)
    (h : s ∉ ["biaae", "lat_saae", "uniaae", "cvae", "vcca", "jmvae", "vib", "saae"]) :
    selectModel (some s) = MainSelection.keyError := by
  simp only [List.mem_cons, List.not_mem_nil, or_false] at h
  push_neg at h
  obtain ⟨h1, h2, h3, h4, h5, h6, h7, h8⟩ := h
  have b1 : (s == "biaae") = false := beq_eq_false_iff_ne.mpr h1
  have b2 : (s == "lat_saae") = false := beq_eq_false_iff_ne.mpr h2
  have b3 : (s == "uniaae") = false := beq_eq_false_iff_ne.mpr h3
  have b4 : (s == "cvae") = false := beq_eq_false_iff_ne.mpr h4
  have b5 : (s == "vcca") = false := beq_eq_false_iff_ne.mpr h5
  have b6 : (s == "jmvae") = false := beq_eq_false_iff_ne.mpr h6
  have b7 : (s == "vib") = false := beq_eq_false_iff_ne.mpr h7
  have b8 : (s == "saae") = false := beq_eq_false_iff_ne.mpr h8
  simp [selectModel, modelArg, models_dict, List.lookup, b1, b2, b3, b4, b5, b6, b7, b8]

theorem unknown_model_key_error_witness :
    selectModel (some "linear") = MainSelection.keyError :=
  unknown_model_key_error "linear" (by decide)

/-- `parser.add_argument('--gpu', type=int, default=-1)`. -/
def gpuArgDefault : ℤ := -1

/-- The `gpus` argument of the `pl.Trainer` call:
`[] if (args.gpu < 0) else [args.gpu]`. -/
def trainerGpus (gpu : ℤ) : List ℤ := if gpu < 0 then [] else [gpu]

/-- C7: `--gpu` defaults to -1; every negative value yields an empty GPU
list (CPU run) and every non-negative value yields the singleton list with
that index. -/
theorem gpu_selection (g g' : ℤ) (hneg : g < 0) (hpos : 0 ≤ g') :
    gpuArgDefault = -1 ∧ trainerGpus g = [] ∧ trainerGpus g' = [g'] := by
  refine ⟨rfl, ?_, ?_⟩
  · simp [trainerGpus, hneg]
  · simp [trainerGpus, not_lt.mpr hpos]

theorem gpu_selection_witness :
    gpuArgDefault = -1 ∧ trainerGpus (-1) = [] ∧ trainerGpus 0 = [0] :=
  gpu_selection (-1) 0 (by decide) (by decide)

/-- `LincsSampler(LincsDataSet(path), test_set=..., use_smiles=True)`. -/
structure SamplerCfg where
  path : String
  test_set : ℕ
  use_smiles : Bool
deriving DecidableEq

/-- `DataLoader(dataset, batch_size=256, shuffle=True, drop_last=False)`. -/
structure LoaderCfg where
  sampler : SamplerCfg
  batch_size : ℕ
  shuffle : Bool
  drop_last : Bool
deriving DecidableEq

/-- `train_dataloader` from the script: LINCS data at `../data/lincs`,
test_set 0, SMILES on, batches of 256. -/
def train_dataloader : LoaderCfg := ⟨⟨"../data/lincs", 0, true⟩, 256, true, false⟩

/-- `val_dataloader` from the script: same data, test_set 1. -/
def val_dataloader : LoaderCfg := ⟨⟨"../data/lincs", 1, true⟩, 256, true, false⟩

/-- Path of the pretrained encoder state dict loaded in `__init__`. -/
def rnn_enc_ckpt_path : String := "../saved_models/rnn_enc.ckpt"

/-- `ModelCheckpoint(filepath, save_best_only=False, period=10)`. -/
structure CheckpointCfg where
  filepath : String
  save_best_only : Bool
  period : ℕ
deriving DecidableEq

def model_checkpoint (modelName : String) : CheckpointCfg :=
  ⟨"../saved_models/lincs_rnn_" ++ modelName, false, 10⟩

/-- `TestTubeLogger(save_dir='../logs/', name='lincs_rnn_' + args.model)`. -/
structure LoggerCfg where
  save_dir : String
  run_name : String
deriving DecidableEq

def test_tube_logger (modelName : String) : LoggerCfg :=
  ⟨"../logs/", "lincs_rnn_" ++ modelName⟩

/-- The `torch.save` target, a format string filled with the model name. -/
def final_ckpt_path (modelName : String) : String :=
  "../saved_models/lincs_rnn_" ++ modelName ++ ".ckpt"

/-- C9: all filesystem paths are fixed relative constants: the pretrained
encoder checkpoint, the train/validation dataset roots (test_set 0 and 1,
batch size 256), the periodic checkpoint directory (period 10, not
best-only), the logger directory and name, and the final state-dict path. -/
theorem fixed_paths (m : String) :
    rnn_enc_ckpt_path = "../saved_models/rnn_enc.ckpt" ∧
    train_dataloader = ⟨⟨"../data/lincs", 0, true⟩, 256, true, false⟩ ∧
    val_dataloader = ⟨⟨"../data/lincs", 1, true⟩, 256, true, false⟩ ∧
    model_checkpoint m = ⟨"../saved_models/lincs_rnn_" ++ m, false, 10⟩ ∧
    test_tube_logger m = ⟨"../logs/", "lincs_rnn_" ++ m⟩ ∧
    final_ckpt_path m = "../saved_models/lincs_rnn_" ++ m ++ ".ckpt" ∧
    model_checkpoint "biaae" = ⟨"../saved_models/lincs_rnn_biaae", false, 10⟩ ∧
    final_ckpt_path "biaae" = "../saved_models/lincs_rnn_biaae.ckpt" := by
  refine ⟨rfl, rfl, rfl, rfl, rfl, rfl, ?_, ?_⟩ <;> decide
